import Mathlib

/-!
Shallow embedding of the VoiceChatBot repository (9mada4/VoiceChatBot) for
verification of its specification. The embedded functions model:

* `voice_chat_bot.py` — `VoiceBot.get_voice_response` (classification stage),
  `VoiceBot.wait_for_voice_confirmation`;
* `final_voice_bot.py` — `VoiceCommandRecognizer.wait_for_yes_command` and its
  `_keyboard_fallback` retry helper, `ChatGPTResponseExtractor.get_response_via_clipboard`,
  `NativeDictationController.start_dictation` / `stop_dictation` /
  `wait_for_dictation_completion`, `FinalVoiceChatBot.main_loop`, and `main`.

External effects (audio capture, transcription, clipboard reads, process
probes) are modelled as explicit oracles passed to the functions; stateful
attributes become explicit state arguments and return values; `while` loops
over wall-clock time become fuel-indexed recursion where one unit of fuel is
one loop iteration (for the 0.5-second poll loops, one tick = 0.5 s).
-/

/-- Python substring containment `needle in hay` on `str` values. -/
def substrB (needle hay : String) : Bool :=
  decide (needle.data <:+: hay.data)

/-- Python `str.lower()`, modelled character-wise with `Char.toLower` (ASCII
lowering). All keyword-set entries in this repository are ASCII-lowercase or
uncased Japanese, so keyword containment after lowering agrees with Python. -/
def py_lower (s : String) : String :=
  String.mk (s.data.map Char.toLower)

/-- Affirmative keyword list of `final_voice_bot.py` (lines 109 and 159). -/
def yes_commands_final : List String :=
  ["はい", "hai", "yes", "うん", "そうです", "オッケー", "ok", "そう"]

/-- Negative keyword list of `final_voice_bot.py` (line 113). -/
def no_commands_final : List String :=
  ["いいえ", "いえ", "no", "だめ", "やめ", "キャンセル"]

/-- Affirmative keyword list of `voice_chat_bot.py` `get_voice_response` (line 138). -/
def yes_commands_vcb : List String :=
  ["はい", "hai", "yes", "うん", "そうです", "オッケー", "ok"]

/-- Terminate keyword list of `voice_chat_bot.py` `get_voice_response` (lines 141-146). -/
def end_commands_vcb : List String :=
  ["終わり", "おわり", "オワリ", "OWARI", "おわりー", "オワリー",
   "しゅうりょう", "シュウリョウ", "SHUURYOU", "しゅーりょー", "シューリョー",
   "end", "finish", "stop", "やめ", "ヤメ",
   "キャンセル", "cancel", "ストップ", "中止", "ちゅうし", "チュウシ"]

/-- Classification stage of `VoiceBot.get_voice_response`
(`voice_chat_bot.py` lines 137-158): lower-case the transcript, test the
terminate keyword set first (returning `False`, printed as 終わり), otherwise
return whether any affirmative keyword is contained. -/
def get_voice_response_classify (text : String) : Bool :=
  let text_lower := py_lower text
  if end_commands_vcb.any (fun w => substrB w text_lower) then false
  else yes_commands_vcb.any (fun w => substrB w text_lower)

/-- `VoiceBot.get_voice_response` (`voice_chat_bot.py` lines 124-158) over the
combined capture/transcription outcome: `none` models a failed recording or a
failed transcription (both return `False`); a transcript is classified by
`get_voice_response_classify`. -/
def get_voice_response (capture : Option String) : Bool :=
  match capture with
  | none => false
  | some text => get_voice_response_classify text

/-- Affirmative test shared by `wait_for_yes_command` and `_keyboard_fallback`
(`final_voice_bot.py` lines 109-110 and 158-161): lower-case the transcript and
test containment of any affirmative keyword. -/
def classify_yes (text : String) : Bool :=
  yes_commands_final.any (fun w => substrB w (py_lower text))

/-- Negative test of `_keyboard_fallback` (`final_voice_bot.py` lines 113-114). -/
def classify_no (text : String) : Bool :=
  no_commands_final.any (fun w => substrB w (py_lower text))

/-- Retry loop body of `VoiceCommandRecognizer._keyboard_fallback`
(`final_voice_bot.py` lines 101-115). `env i` is the transcript produced by the
i-th capture attempt of the run (`none` when recording or transcription failed),
`i` the index of the next attempt, and the second argument the number of loop
iterations remaining. Returns the decision string together with the number of
capture attempts performed. -/
def fallback_attempts (env : Nat → Option String) : Nat → Nat → String × Nat
  | _, 0 => ("いいえ", 0)
  | i, n + 1 =>
    match env i with
    | none =>
      let r := fallback_attempts env (i + 1) n
      (r.1, r.2 + 1)
    | some text =>
      if classify_yes text then ("はい", 1)
      else if classify_no text then ("いいえ", 1)
      else
        let r := fallback_attempts env (i + 1) n
        (r.1, r.2 + 1)

/-- `VoiceCommandRecognizer._keyboard_fallback` (`final_voice_bot.py` lines
95-118): three retry attempts starting at capture index `base`; after all three
fail it returns the default "いいえ". -/
def keyboard_fallback (env : Nat → Option String) (base : Nat) : String × Nat :=
  fallback_attempts env base 3

/-- `VoiceCommandRecognizer.wait_for_yes_command` (`final_voice_bot.py` lines
138-172). `avail` is the module flag `VOICE_RECOGNITION_AVAILABLE`; `env` the
per-capture transcription oracle. Returns the boolean decision together with
the total number of capture attempts (calls of `record_audio_macos`) performed:
when recognition is available the function makes one initial capture itself and
falls back to `_keyboard_fallback` only when that capture or its transcription
fails; a successful transcript is decided immediately by the affirmative test
alone (there is no terminate-keyword test in this function). -/
def wait_for_yes_command (avail : Bool) (env : Nat → Option String) : Bool × Nat :=
  if avail then
    match env 0 with
    | some text => (classify_yes text, 1)
    | none =>
      let r := keyboard_fallback env 1
      (r.1 == "はい", r.2 + 1)
  else
    let r := keyboard_fallback env 0
    (r.1 == "はい", r.2)

/-- `ChatGPTResponseExtractor.get_response_via_clipboard`
(`final_voice_bot.py` lines 194-212). The state argument `last` is the
attribute `self.last_response` (initialised to `""` in `__init__`, line 179);
`read` is the outcome of the underlying clipboard read, `none` modelling the
exception path (lines 210-212). A non-empty value that differs from the stored
snapshot updates the snapshot and is returned; otherwise `none` is returned and
the snapshot is left unchanged. The result pairs the returned value with the
snapshot after the call. -/
def get_response_via_clipboard (last : String) (read : Option String) :
    Option String × String :=
  match read with
  | none => (none, last)
  | some content =>
    if content ≠ "" ∧ content ≠ last then (some content, content)
    else (none, last)

/-- Successive calls of `get_response_via_clipboard`, one per element of the
list of successful channel reads, threading the `last_response` snapshot.
Returns the list of values yielded across the calls and the final snapshot. -/
def poll_run (last : String) : List String → List String × String
  | [] => ([], last)
  | c :: cs =>
    let r := get_response_via_clipboard last (some c)
    let rest := poll_run r.2 cs
    (r.1.toList ++ rest.1, rest.2)

/-- Key events emitted by the command-key double tap of
`NativeDictationController.start_dictation` / `stop_dictation`
(`final_voice_bot.py` lines 259-264 and 284-289): two key-down/key-up pulses of
the `cmd` key, recorded as (key, isDown) pairs. -/
def cmd_double_tap : List (String × Bool) :=
  [("cmd", true), ("cmd", false), ("cmd", true), ("cmd", false)]

/-- `NativeDictationController.start_dictation` (`final_voice_bot.py` lines
249-272). `probe_before` is the result of the initial `check_dictation_status`
call; `probe_after` the result of the re-probe after the settle delay. Returns
the boolean result together with the key events emitted: when the probe already
reports active, `True` is returned with no events. -/
def start_dictation (probe_before probe_after : Bool) : Bool × List (String × Bool) :=
  if probe_before then (true, [])
  else (probe_after, cmd_double_tap)

/-- `NativeDictationController.stop_dictation` (`final_voice_bot.py` lines
274-297): when the probe already reports inactive, `True` is returned with no
events; otherwise the double tap is emitted and success is the re-probe
reporting inactive. -/
def stop_dictation (probe_before probe_after : Bool) : Bool × List (String × Bool) :=
  if probe_before then (!probe_after, cmd_double_tap)
  else (true, [])

/-- First loop of `NativeDictationController.wait_for_dictation_completion`
(`final_voice_bot.py` lines 307-311, identical in `simplified_voice_bot.py`
lines 184-188): poll the probe once per 0.5-second tick while elapsed time is
below the 10-second sub-timeout. `probe u` is the status at tick `u` (time
0.5·u s); the first argument of the recursion is the number of ticks remaining
under the sub-timeout, the second the current tick. Returns the tick at which
activity was first observed, or `none` when the sub-timeout elapsed. -/
def await_active (probe : Nat → Bool) : Nat → Nat → Option Nat
  | 0, _ => none
  | fuel + 1, t => if probe t then some t else await_active probe fuel (t + 1)

/-- Second loop of `wait_for_dictation_completion` (`final_voice_bot.py` lines
317-322): poll once per 0.5-second tick while elapsed time since the original
start is below the overall timeout; return `true` as soon as the probe reports
inactive, `false` when the fuel (remaining ticks under the overall timeout) is
exhausted. -/
def await_inactive (probe : Nat → Bool) : Nat → Nat → Bool
  | 0, _ => false
  | fuel + 1, t => if probe t = false then true else await_inactive probe fuel (t + 1)

/-- `NativeDictationController.wait_for_dictation_completion`
(`final_voice_bot.py` lines 299-325): wait up to 10 s (20 half-second ticks)
for the probe to report active, returning `false` early if it never does; once
activity was observed at tick `t`, poll until inactive or until the overall
`timeout` (in seconds, hence `2 * timeout` ticks measured from the original
start) elapses. -/
def wait_for_dictation_completion (probe : Nat → Bool) (timeout : Nat) : Bool :=
  match await_active probe 20 0 with
  | none => false
  | some t => await_inactive probe (2 * timeout - t) t

/-- Observable events of one iteration of `FinalVoiceChatBot.main_loop`. -/
inductive Ev
  | cycleRun (success : Bool)
  | contPrompt
  | retryPrompt
  | waitAffirm (answer : Bool)
  | terminated
deriving DecidableEq

/-- Event trace of the `while self.is_running` loop of
`FinalVoiceChatBot.main_loop` (`final_voice_bot.py` lines 477-492). `cycle n`
is the success of the n-th `chat_cycle` call; `affirm n` the answer of the
single `wait_for_yes_command` call made in iteration n (inside
`continuation_check` on success, after the spoken retry prompt on failure).
The first `Nat` argument is fuel bounding how many iterations are unfolded (the
loop itself only exits through the two `break` statements); the second is the
iteration index. A `break` appends `Ev.terminated`. -/
def main_loop_trace (cycle affirm : Nat → Bool) : Nat → Nat → List Ev
  | 0, _ => []
  | fuel + 1, n =>
    if cycle n then
      Ev.cycleRun true :: Ev.contPrompt :: Ev.waitAffirm (affirm n) ::
        (if affirm n then main_loop_trace cycle affirm fuel (n + 1) else [Ev.terminated])
    else
      Ev.cycleRun false :: Ev.retryPrompt :: Ev.waitAffirm (affirm n) ::
        (if affirm n then main_loop_trace cycle affirm fuel (n + 1) else [Ev.terminated])

/-- Number of `chat_cycle` executions recorded in a trace. -/
def count_cycles : List Ev → Nat
  | [] => 0
  | Ev.cycleRun _ :: rest => count_cycles rest + 1
  | _ :: rest => count_cycles rest

/-- Number of affirmative intent-engine answers recorded in a trace. -/
def count_yes : List Ev → Nat
  | [] => 0
  | Ev.waitAffirm true :: rest => count_yes rest + 1
  | _ :: rest => count_yes rest

/-- Affirmative keyword list of `VoiceBot.wait_for_voice_confirmation`
(`voice_chat_bot.py` line 409). -/
def yes_commands_conf : List String :=
  ["はい", "hai", "yes", "うん", "そうです", "オッケー", "ok"]

/-- Terminate keyword list of `VoiceBot.wait_for_voice_confirmation`
(`voice_chat_bot.py` line 411). -/
def end_commands_conf : List String :=
  ["終わり", "おわり", "オワリ", "キャンセル", "cancel", "いいえ", "no"]

/-- `VoiceBot.wait_for_voice_confirmation` (`voice_chat_bot.py` lines 385-436):
a `while True:` loop with no timeout. Each iteration records and transcribes
one clip (`env i`, `none` on capture or transcription failure); a non-empty
transcript containing an affirmative keyword returns `True`, else one
containing a terminate keyword returns `False`; every other outcome sleeps and
loops again. The loop has no bound in the source, so the model is indexed by
fuel (iterations unfolded); `none` means the loop had not returned within that
many iterations. -/
def wait_for_voice_confirmation (env : Nat → Option String) : Nat → Nat → Option Bool
  | 0, _ => none
  | fuel + 1, i =>
    match env i with
    | none => wait_for_voice_confirmation env fuel (i + 1)
    | some text =>
      if text ≠ "" then
        let tl := py_lower text
        if yes_commands_conf.any (fun w => substrB w tl) then some true
        else if end_commands_conf.any (fun w => substrB w tl) then some false
        else wait_for_voice_confirmation env fuel (i + 1)
      else wait_for_voice_confirmation env fuel (i + 1)

/-- Outcome of the `main` function of `final_voice_bot.py`. -/
inductive MainOutcome
  | ranLoop
  | startCancelled
  | startupError
deriving DecidableEq

/-- `main` of `final_voice_bot.py` (lines 507-547) together with the process
exit status. `raises` models any exception escaping the `try` block (for
example a required collaborator being entirely unavailable while constructing
the bot): it is caught by the `except Exception` handler (lines 545-547), which
prints and falls through; `start_affirm` is the result of the initial
`wait_for_yes_command`. The function never calls `sys.exit` and module import
failures are themselves caught at lines 18-33, so on every path `main` returns
normally and the interpreter exits with status 0. -/
def main_run (raises start_affirm : Bool) : MainOutcome × Nat :=
  if raises then (MainOutcome.startupError, 0)
  else if start_affirm then (MainOutcome.ranLoop, 0)
  else (MainOutcome.startCancelled, 0)

/-- Example activity probe for concrete evaluation: dictation is active exactly
at ticks 2, 3 and 4. -/
def probe_ex (t : Nat) : Bool :=
  decide (2 ≤ t ∧ t < 5)

theorem fallback_attempts_all_none (env : Nat → Option String)
    (h : ∀ i, env i = none) :
    ∀ n i, fallback_attempts env i n = ("いいえ", n) := by
  intro n
  induction n with
  | zero => intro i; rfl
  | succ n ih =>
    intro i
    simp only [fallback_attempts, h i, ih (i + 1)]

theorem fallback_attempts_count_le (env : Nat → Option String) :
    ∀ n i, (fallback_attempts env i n).2 ≤ n := by
  intro n
  induction n with
  | zero => intro i; exact Nat.le_refl 0
  | succ n ih =>
    intro i
    simp only [fallback_attempts]
    cases env i with
    | none => exact Nat.succ_le_succ (ih (i + 1))
    | some text =>
      by_cases hy : classify_yes text
      · simp [hy]
      · by_cases hn : classify_no text
        · simp [hy, hn]
        · simpa [hy, hn] using Nat.succ_le_succ (ih (i + 1))

theorem main_loop_cycle_count (cycle affirm : Nat → Bool) :
    ∀ fuel n, count_cycles (main_loop_trace cycle affirm fuel n) ≤
      count_yes (main_loop_trace cycle affirm fuel n) + 1 := by
  intro fuel
  induction fuel with
  | zero => intro n; simp [main_loop_trace, count_cycles, count_yes]
  | succ fuel ih =>
    intro n
    by_cases hc : cycle n <;> by_cases ha : affirm n <;>
      simp [main_loop_trace, hc, ha, count_cycles, count_yes] <;>
      have := ih (n + 1) <;> omega

theorem await_active_all_false (probe : Nat → Bool) :
    ∀ fuel s, (∀ u, s ≤ u → u < s + fuel → probe u = false) →
      await_active probe fuel s = none := by
  intro fuel
  induction fuel with
  | zero => intro s _; rfl
  | succ fuel ih =>
    intro s h
    have hs : probe s = false := h s (Nat.le_refl s) (by omega)
    simp only [await_active, hs, Bool.false_eq_true, if_false]
    exact ih (s + 1) (fun u h1 h2 => h u (by omega) (by omega))

theorem await_inactive_of_exists (probe : Nat → Bool) :
    ∀ fuel t, (∃ u, t ≤ u ∧ u < t + fuel ∧ probe u = false) →
      await_inactive probe fuel t = true := by
  intro fuel
  induction fuel with
  | zero =>
    intro t h
    obtain ⟨u, h1, h2, _⟩ := h
    omega
  | succ fuel ih =>
    intro t h
    by_cases ht : probe t = false
    · simp [await_inactive, ht]
    · obtain ⟨u, h1, h2, h3⟩ := h
      have hne : u ≠ t := fun he => ht (he ▸ h3)
      simp only [await_inactive, ht, if_false]
      exact ih (t + 1) ⟨u, by omega, by omega, h3⟩

theorem await_inactive_of_all_true (probe : Nat → Bool) :
    ∀ fuel t, (∀ u, t ≤ u → u < t + fuel → probe u = true) →
      await_inactive probe fuel t = false := by
  intro fuel
  induction fuel with
  | zero => intro t _; rfl
  | succ fuel ih =>
    intro t h
    have ht : probe t = true := h t (Nat.le_refl t) (by omega)
    simp only [await_inactive, ht, reduceCtorEq, if_false]
    exact ih (t + 1) (fun u h1 h2 => h u (by omega) (by omega))

theorem wait_for_voice_confirmation_all_none :
    ∀ fuel i, wait_for_voice_confirmation (fun _ => none) fuel i = none := by
  intro fuel
  induction fuel with
  | zero => intro i; rfl
  | succ fuel ih =>
    intro i
    simpa only [wait_for_voice_confirmation] using ih (i + 1)

/-- Claim C1, counterexample: the yes-no judgement inside
`wait_for_yes_command` classifies the transcript "はい、終わり" — which contains
both an affirmative and a terminate keyword — as affirmative (`true`), not as
terminate, because `wait_for_yes_command` in `final_voice_bot.py` tests no
terminate keyword set at all. -/
theorem C1_counterexample :
    (wait_for_yes_command true (fun _ => some "はい、終わり")).1 = true := by
  decide

/-- Claim C1, amended: in `get_voice_response` (`voice_chat_bot.py`) terminate
keywords do take precedence — every transcript whose lower-cased text contains
both an affirmative and a terminate keyword classifies as terminate (the
`False` return of the terminate branch), never as affirmative. -/
theorem C1_terminate_priority (t : String)
    (_hy : ∃ w ∈ yes_commands_vcb, substrB w (py_lower t) = true)
    (he : ∃ e ∈ end_commands_vcb, substrB e (py_lower t) = true) :
    get_voice_response_classify t = false := by
  unfold get_voice_response_classify
  have hend : end_commands_vcb.any (fun w => substrB w (py_lower t)) = true := by
    obtain ⟨e, hmem, hsub⟩ := he
    exact List.any_eq_true.mpr ⟨e, hmem, hsub⟩
  simp [hend]

/-- Claim C1, witness: "はい、終わり" contains the affirmative keyword "はい" and
the terminate keyword "終わり", and `get_voice_response` classifies it as
terminate. -/
theorem C1_terminate_priority_witness :
    get_voice_response_classify "はい、終わり" = false :=
  C1_terminate_priority "はい、終わり"
    ⟨"はい", by decide, by decide⟩ ⟨"終わり", by decide, by decide⟩

/-- Claim C2, counterexample: with voice recognition available and every
capture/transcription attempt failing, `wait_for_yes_command` performs 4
capture attempts (the initial capture plus the 3 fallback retries), not
exactly 3, before returning the fallback value `false`. -/
theorem C2_counterexample :
    wait_for_yes_command true (fun _ => none) = (false, 4) := by
  decide

/-- Claim C2, amended: for every run in which every capture/transcription
attempt fails, `wait_for_yes_command` returns the deterministic fallback value
`false`; the `_keyboard_fallback` retry loop performs exactly 3 attempts, so
the whole call performs 4 captures when recognition is available (one initial
capture plus the 3 retries) and exactly 3 when it is unavailable. -/
theorem C2_retry_bound (avail : Bool) (env : Nat → Option String)
    (h : ∀ i, env i = none) :
    wait_for_yes_command avail env = (false, if avail then 4 else 3) := by
  unfold wait_for_yes_command keyboard_fallback
  cases avail with
  | true => simp [h 0, fallback_attempts_all_none env h 3 1]
  | false => simp [fallback_attempts_all_none env h 3 0]

/-- Claim C2, witness: with recognition unavailable and all captures failing,
`wait_for_yes_command` performs exactly 3 capture attempts and returns
`false`. -/
theorem C2_retry_bound_witness :
    wait_for_yes_command false (fun _ => none) = (false, 3) :=
  C2_retry_bound false (fun _ => none) (fun _ => rfl)

/-- Claim C3: whenever a chat cycle of `main_loop` fails, the iteration emits
exactly one spoken retry prompt followed by exactly one `wait_for_yes_command`
call; when that call answers `false` the loop breaks (the trace ends in
`terminated` with no further events); and across any trace the number of chat
cycles executed never exceeds the number of affirmative intent answers plus
one, so no phase is retried without a fresh affirmative. -/
theorem C3_retry_policy (cycle affirm : Nat → Bool) (fuel n : Nat)
    (hfail : cycle n = false) :
    main_loop_trace cycle affirm (fuel + 1) n =
      Ev.cycleRun false :: Ev.retryPrompt :: Ev.waitAffirm (affirm n) ::
        (if affirm n then main_loop_trace cycle affirm fuel (n + 1)
         else [Ev.terminated])
    ∧ (affirm n = false →
        main_loop_trace cycle affirm (fuel + 1) n =
          [Ev.cycleRun false, Ev.retryPrompt, Ev.waitAffirm false, Ev.terminated])
    ∧ count_cycles (main_loop_trace cycle affirm (fuel + 1) n) ≤
        count_yes (main_loop_trace cycle affirm (fuel + 1) n) + 1 := by
  refine ⟨?_, ?_, main_loop_cycle_count cycle affirm (fuel + 1) n⟩
  · simp [main_loop_trace, hfail]
  · intro ha
    simp [main_loop_trace, hfail, ha]

/-- Claim C3, witness: a failing cycle answered negatively produces exactly the
trace error, retry prompt, one wait, terminated. -/
theorem C3_retry_policy_witness :
    main_loop_trace (fun _ => false) (fun _ => false) 1 0 =
      [Ev.cycleRun false, Ev.retryPrompt, Ev.waitAffirm false, Ev.terminated] :=
  (C3_retry_policy (fun _ => false) (fun _ => false) 0 0 rfl).2.1 rfl

/-- Claim C4: the Response Watcher returns a value only when it is non-empty
and differs by exact equality from the stored snapshot; immediately after a
value is returned, reading the same channel content again returns nothing; and
for the channel sequence ["", "A", "A", "B"] polled once per element starting
from the initial snapshot "", it yields "A" exactly once and then "B" exactly
once. -/
theorem C4_novelty :
    (∀ last read v, (get_response_via_clipboard last read).1 = some v →
      read = some v ∧ v ≠ "" ∧ v ≠ last)
    ∧ (∀ last read v, (get_response_via_clipboard last read).1 = some v →
      (get_response_via_clipboard (get_response_via_clipboard last read).2 read).1 = none)
    ∧ poll_run "" ["", "A", "A", "B"] = (["A", "B"], "B") := by
  refine ⟨?_, ?_, by decide⟩
  · intro last read v h
    cases read with
    | none => simp [get_response_via_clipboard] at h
    | some content =>
      by_cases hc : content ≠ "" ∧ content ≠ last
      · simp only [get_response_via_clipboard, if_pos hc, Option.some.injEq] at h
        exact ⟨by rw [h], h ▸ hc.1, h ▸ hc.2⟩
      · simp [get_response_via_clipboard, if_neg hc] at h
  · intro last read v h
    cases read with
    | none => simp [get_response_via_clipboard] at h
    | some content =>
      by_cases hc : content ≠ "" ∧ content ≠ last
      · simp [get_response_via_clipboard, if_pos hc]
      · simp [get_response_via_clipboard, if_neg hc] at h

/-- Claim C4, witness: after "A" has been returned from snapshot "", polling
the unchanged channel value "A" again returns nothing. -/
theorem C4_novelty_witness :
    (get_response_via_clipboard
      (get_response_via_clipboard "" (some "A")).2 (some "A")).1 = none :=
  C4_novelty.2.1 "" (some "A") "A" (by decide)

/-- Claim C5, counterexample: a successful clipboard read of the empty string
from snapshot "A" leaves the stored snapshot equal to "A", which differs from
the content that was read — the snapshot is not mutated on every successful
read. -/
theorem C5_counterexample :
    (get_response_via_clipboard "A" (some "")).2 = "A" ∧
      (get_response_via_clipboard "A" (some "")).2 ≠ "" := by
  decide

/-- Claim C5, amended: the snapshot is mutated to the value just read exactly
on the calls that return a value (non-empty content differing from the
snapshot); on every call that returns nothing — including successful reads of
empty or unchanged content — the snapshot is left unchanged. -/
theorem C5_snapshot (last : String) (read : Option String) :
    (∀ v, (get_response_via_clipboard last read).1 = some v →
      (get_response_via_clipboard last read).2 = v)
    ∧ ((get_response_via_clipboard last read).1 = none →
      (get_response_via_clipboard last read).2 = last) := by
  cases read with
  | none => exact ⟨fun v h => by simp [get_response_via_clipboard] at h, fun _ => rfl⟩
  | some content =>
    by_cases hc : content ≠ "" ∧ content ≠ last
    · refine ⟨fun v h => ?_, fun h => ?_⟩
      · simp only [get_response_via_clipboard, if_pos hc, Option.some.injEq] at h ⊢
        rw [h]
      · simp [get_response_via_clipboard, if_pos hc] at h
    · exact ⟨fun v h => by simp [get_response_via_clipboard, if_neg hc] at h,
        fun _ => by simp [get_response_via_clipboard, if_neg hc]⟩

/-- Claim C5, witness: a call returning the value "B" from snapshot "" stores
"B" as the new snapshot. -/
theorem C5_snapshot_witness :
    (get_response_via_clipboard "" (some "B")).2 = "B" :=
  (C5_snapshot "" (some "B")).1 "B" (by decide)

/-- Claim C6: `wait_for_dictation_completion` returns `false` early when the
probe never reports active during the 10-second sub-timeout (ticks 0..19 at
0.5 s per tick); once activity was observed at tick `t`, it returns `false`
when the probe stays active through every remaining tick of the overall
timeout, and `true` as soon as some tick before the overall timeout reports
inactive. -/
theorem C6_completion_wait (probe : Nat → Bool) (timeout : Nat) :
    ((∀ t, t < 20 → probe t = false) →
      wait_for_dictation_completion probe timeout = false)
    ∧ ∀ t, await_active probe 20 0 = some t →
        (((∀ u, t ≤ u → u < 2 * timeout → probe u = true) →
          wait_for_dictation_completion probe timeout = false)
        ∧ ((∃ u, t ≤ u ∧ u < 2 * timeout ∧ probe u = false) →
          wait_for_dictation_completion probe timeout = true)) := by
  constructor
  · intro h
    unfold wait_for_dictation_completion
    rw [await_active_all_false probe 20 0 (fun u _ hu => h u (by omega))]
  · intro t ht
    constructor
    · intro h
      unfold wait_for_dictation_completion
      rw [ht]
      exact await_inactive_of_all_true probe (2 * timeout - t) t
        (fun u h1 h2 => h u h1 (by omega))
    · intro h
      obtain ⟨u, h1, h2, h3⟩ := h
      unfold wait_for_dictation_completion
      rw [ht]
      exact await_inactive_of_exists probe (2 * timeout - t) t
        ⟨u, h1, by omega, h3⟩

/-- Claim C6, witness: with a probe active exactly at ticks 2..4 (activity
observed at tick 2, inactivity at tick 5) and a 60-second overall timeout, the
wait reports completion. -/
theorem C6_completion_wait_witness :
    wait_for_dictation_completion probe_ex 60 = true :=
  ((C6_completion_wait probe_ex 60).2 2 (by decide)).2
    ⟨5, by decide, by decide, by decide⟩

/-- Claim C7: at the boundary states the Dictation Controller is idempotent —
`stop_dictation` with the probe already reporting inactive returns success with
no key events emitted, and `start_dictation` with the probe already reporting
active returns success with no key events emitted, whatever the later re-probe
would report. -/
theorem C7_idempotent (after : Bool) :
    stop_dictation false after = (true, []) ∧
      start_dictation true after = (true, []) :=
  ⟨rfl, rfl⟩

/-- Claim C8, counterexample: `wait_for_voice_confirmation` is not a bounded
wait — when every capture/transcription attempt fails there is no number of
loop iterations after which it has returned, so it blocks indefinitely. -/
theorem C8_counterexample :
    ¬ ∃ n : Nat,
      (wait_for_voice_confirmation (fun _ => none) n 0).isSome = true := by
  rintro ⟨n, h⟩
  rw [wait_for_voice_confirmation_all_none n 0] at h
  simp at h

/-- Claim C8, amended: the intent-engine wait is bounded — `wait_for_yes_command`
performs at most 4 capture attempts on every run — but not every wait in the
system is: `wait_for_voice_confirmation` in `voice_chat_bot.py` is a
`while True:` sleep-poll loop with no timeout, which never returns while every
recognition attempt fails. -/
theorem C8_bounded_waits :
    (∀ fuel i, wait_for_voice_confirmation (fun _ => none) fuel i = none)
    ∧ ∀ avail env, (wait_for_yes_command avail env).2 ≤ 4 := by
  refine ⟨wait_for_voice_confirmation_all_none, ?_⟩
  intro avail env
  unfold wait_for_yes_command keyboard_fallback
  cases avail with
  | true =>
    cases henv : env 0 with
    | some t => simp [henv]
    | none =>
      simp only [henv, if_true]
      have := fallback_attempts_count_le env 3 1
      omega
  | false =>
    simp only [Bool.false_eq_true, if_false]
    have := fallback_attempts_count_le env 3 0
    omega

/-- Claim C9, counterexample: an unrecoverable setup failure (an exception
escaping the body of `main`, such as a required collaborator being entirely
unavailable) is caught by the `except` handler and the process exits with
status 0, not with a non-zero code. -/
theorem C9_counterexample :
    main_run true true = (MainOutcome.startupError, 0) :=
  rfl

/-- Claim C9, amended: the process exits with status 0 on every path of
`main` — after running the orchestrator loop, after a cancelled start, and
after a caught startup error alike; no path produces a non-zero exit code. -/
theorem C9_exit_code (raises affirm : Bool) :
    (main_run raises affirm).2 = 0 := by
  cases raises <;> cases affirm <;> rfl

/-- Claim C10: affirmative-intent classification is case-insensitive substring
containment, not whole-word matching — `wait_for_yes_command` answers `true`
for every transcript whose lower-cased text contains any affirmative keyword
anywhere, and the yes-branch of `get_voice_response` does the same when no
terminate keyword preempts it; in particular "そうじき" (containing "そう"
inside an unrelated word) classifies affirmative, as does "looking"
(containing "ok"). -/
theorem C10_substring_matching :
    (∀ t : String, (∃ w ∈ yes_commands_final, substrB w (py_lower t) = true) →
      (wait_for_yes_command true (fun _ => some t)).1 = true)
    ∧ (∀ t : String, (∃ w ∈ yes_commands_vcb, substrB w (py_lower t) = true) →
      (∀ e ∈ end_commands_vcb, substrB e (py_lower t) = false) →
      get_voice_response_classify t = true)
    ∧ (wait_for_yes_command true (fun _ => some "そうじき")).1 = true
    ∧ get_voice_response_classify "looking" = true := by
  refine ⟨?_, ?_, by decide, by decide⟩
  · intro t h
    obtain ⟨w, hw, hsub⟩ := h
    have : classify_yes t = true := by
      unfold classify_yes
      exact List.any_eq_true.mpr ⟨w, hw, hsub⟩
    simp [wait_for_yes_command, this]
  · intro t h hend
    obtain ⟨w, hw, hsub⟩ := h
    unfold get_voice_response_classify
    have h1 : end_commands_vcb.any (fun e => substrB e (py_lower t)) = false := by
      rw [List.any_eq_false]
      intro e he
      simp [hend e he]
    simp only [h1, Bool.false_eq_true, if_false]
    exact List.any_eq_true.mpr ⟨w, hw, hsub⟩

/-- Claim C10, witness: the transcript "たぶんok" contains the affirmative
keyword "ok" as a substring and `wait_for_yes_command` answers `true` on it. -/
theorem C10_substring_matching_witness :
    (wait_for_yes_command true (fun _ => some "たぶんok")).1 = true :=
  C10_substring_matching.1 "たぶんok" ⟨"ok", by decide, by decide⟩
